import Mathlib

/-!
# Shallow embedding of `vscode-updater`

This file embeds the update-check-and-apply cycle of the `vscode-updater`
Deno/TypeScript program:

* `src/updater.ts` — the `Updater` class (`getLatestVersion`,
  `getLocalVersion`, `checkUpdate`, `downloadLatest`, `updateProcess`,
  `isProcessRunning`, `run`);
* `src/utils.ts` — the `notify` function with its module-level
  `lastMessage` / `lastTime` de-duplication state;
* `src/config.ts` — the `ConfigData` shape and the `Config.interval`
  getter's falsy default;
* `vscode-updater.ts` — `start` and the body of `intervalLoop`.

External effects (HTTP fetches, file writes, archive extraction, process
listing, desktop notifications) are modelled by an `Env` record that fixes
what the outside world answers during one cycle, and by an explicit event
trace (`Event`) recording which effectful calls the code performs and with
which arguments.  Mutable fields (`Updater.reset`, `lastMessage`,
`lastTime`) are threaded as explicit state (`St`).  A thrown JavaScript
exception is an `Except.error`; because `Updater.reset` and the notify
state are object/module fields, every operation returns its final state
and emitted events even when it throws.
-/

/-- Structure `ConfigData` from `src/config.ts` (`dir`, `interval`, optional `token`). -/
structure ConfigData where
  dir : String
  interval : Int
  token : Option String
deriving DecidableEq, Repr

/-- The `Config.interval` getter of `src/config.ts`: a falsy stored
interval (modelled as `0`) falls back to 30 minutes. -/
def configInterval (cfg : ConfigData) : Int :=
  if cfg.interval = 0 then 30 * 60 * 1000 else cfg.interval

/-- The `Version` type of `src/updater.ts`: `tag_name` and `zipball_url`
extracted from the GitHub release response. -/
structure Version where
  version : String
  zipurl : String
deriving DecidableEq, Repr

/-- Shape of the JSON answer of the releases-API fetch in
`Updater.getLatestVersion`:
* `release tag zipball` — the body has a truthy `tag_name` (and its
  `zipball_url`);
* `throttled message resetHeader` — the body has no truthy `tag_name`
  (rate-limited or error answer); `resetHeader` is the
  `x-ratelimit-reset` response header in Unix seconds;
* `failure e` — `fetch` or `res.json()` throws. -/
inductive ApiResponse where
  | release (tag zipball : String)
  | throttled (message : String) (resetHeader : Int)
  | failure (e : String)
deriving DecidableEq, Repr

/-- What `Updater.getLocalVersion` finds at
`config.dir + "\\resources\\app\\package.json"`:
the file is absent, its JSON is malformed (`JSON.parse` throws), or it
holds a `version` field. -/
inductive LocalManifest where
  | missing
  | malformed (e : String)
  | version (v : String)
deriving DecidableEq, Repr

/-- One cycle's external world: what each effectful call would answer.
`processCheck` is the result of the `tasklist` probe in
`Updater.isProcessRunning` (`.error` when spawning throws);
`downloadOk` is `res.ok` of the archive fetch; `extractError` is the
exception `decompress` would throw (`none` = success); `configCheck` is
the result of `checkConfig` (`.error` when it throws on invalid content);
`now` is `Date.now()` in milliseconds; `tempDir` is the temporary
directory created in `src/utils.ts`. -/
structure Env where
  api : ApiResponse
  manifest : LocalManifest
  processCheck : Except String Bool
  downloadOk : Bool
  extractError : Option String
  configCheck : Except String Bool
  now : Int
  tempDir : String
deriving Repr

/-- The module-level notification state of `src/utils.ts`
(`lastMessage`, `lastTime`). -/
structure NotifyState where
  lastMessage : String
  lastTime : Int
deriving DecidableEq, Repr

/-- The wait computed in `notify` before showing:
`((lastTime === 0) ? lastTime : 1000 - (Date.now() - lastTime)) + 100`. -/
def notifyWait (s : NotifyState) (now : Int) : Int :=
  (if s.lastTime = 0 then s.lastTime else 1000 - (now - s.lastTime)) + 100

/-- Function `notify` from `src/utils.ts`.  If the message equals `lastMessage`
it returns before showing anything and before touching the state.
Otherwise it records the message, shows the notification after
`notifyWait` milliseconds and stores the show time in `lastTime`.
Returns the new state and whether the notification was shown. -/
def notify (s : NotifyState) (title message : String) (now : Int) :
    NotifyState × Bool :=
  if s.lastMessage = message then (s, false)
  else ({ lastMessage := message, lastTime := now + notifyWait s now }, true)

/-- Trace of effectful calls performed by the embedded code.
`httpGet` records the releases-API fetch and the headers actually passed
to `fetch`; `download` is the archive fetch; `fileWrite` is
`Deno.writeFileSync`; `extract` is `decompress(archive, dest)`;
`fileRemove` is `Deno.removeSync`; `notifyCall` records every call of
`notify` together with whether it actually showed a notification. -/
inductive Event where
  | httpGet (url : String) (authHeader : Option String)
  | download (url : String)
  | fileWrite (path : String)
  | extract (archive dest : String)
  | fileRemove (path : String)
  | notifyCall (title message : String) (shown : Bool)
deriving DecidableEq, Repr

/-- Mutable state threaded through a cycle: the `Updater.reset` field
(initially `100`) and the notify module state. -/
structure St where
  reset : Int
  ns : NotifyState
deriving DecidableEq, Repr

def apiUri : String :=
  "https://api.github.com/repos/microsoft/vscode/releases/latest"

/-- The `ReqHeaders` object built in `Updater.getLatestVersion`: when a
token is configured, `Authorization: token <value>` is set on it. -/
def builtReqHeaders (cfg : ConfigData) : List (String × String) :=
  match cfg.token with
  | some t => [("Authorization", "token " ++ t)]
  | none => []

/-- Method `Updater.getLatestVersion` from `src/updater.ts`.
If `this.reset > 100` it returns `null` at once (no fetch).  Otherwise it
performs the fetch — note that the source calls `fetch(uri)` without
passing `ReqHeaders`, so the request carries no `Authorization` header,
which the `httpGet` event records as `none`.  A truthy `tag_name` yields
a `Version`; otherwise `this.reset` is set to
`Number(resetHeader) * 1000 - Date.now()` and `null` is returned; a
throwing fetch propagates the exception. -/
def getLatestVersion (_cfg : ConfigData) (env : Env) (st : St) :
    Except String (Option Version) × St × List Event :=
  if st.reset > 100 then (.ok none, st, [])
  else
    match env.api with
    | .failure e => (.error e, st, [.httpGet apiUri none])
    | .release tag zipball =>
        (.ok (some ⟨tag, zipball⟩), st, [.httpGet apiUri none])
    | .throttled _msg resetHeader =>
        (.ok none, { st with reset := resetHeader * 1000 - env.now },
          [.httpGet apiUri none])

def updaterTitle : String := "Vscode Updater"
def errorTitle : String := "Vscode Updater Error"

def localVersionErrorMsg : String :=
  "Unable to find the local version, please check the path in the configuration file."

/-- Method `Updater.getLocalVersion`: reads `version` from the manifest under
`config.dir`; if the file is absent it notifies and resolves to
`undefined`; malformed JSON throws. -/
def getLocalVersion (_cfg : ConfigData) (env : Env) (st : St) :
    Except String (Option String) × St × List Event :=
  match env.manifest with
  | .version v => (.ok (some v), st, [])
  | .missing =>
      let r := notify st.ns errorTitle localVersionErrorMsg env.now
      (.ok none, { st with ns := r.1 },
        [.notifyCall errorTitle localVersionErrorMsg r.2])
  | .malformed e => (.error e, st, [])

def updateAvailableMsg : String := "Update available!"

/-- Method `Updater.checkUpdate`: local version `undefined` gives `false`;
otherwise the latest version is fetched and compared by strict string
inequality (`latest.version !== version`); when an update is needed the
"Update available!" notification is issued. -/
def checkUpdate (cfg : ConfigData) (env : Env) (st : St) :
    Except String Bool × St × List Event :=
  match getLocalVersion cfg env st with
  | (.error e, st1, ev1) => (.error e, st1, ev1)
  | (.ok none, st1, ev1) => (.ok false, st1, ev1)
  | (.ok (some v), st1, ev1) =>
    match getLatestVersion cfg env st1 with
    | (.error e, st2, ev2) => (.error e, st2, ev1 ++ ev2)
    | (.ok latest, st2, ev2) =>
      let needUpdate : Bool :=
        match latest with
        | none => false
        | some l => l.version != v
      if needUpdate then
        let r := notify st2.ns updaterTitle updateAvailableMsg env.now
        (.ok true, { st2 with ns := r.1 },
          ev1 ++ ev2 ++ [.notifyCall updaterTitle updateAvailableMsg r.2])
      else (.ok needUpdate, st2, ev1 ++ ev2)

/-- The download URL built in `Updater.downloadLatest`: a fixed Microsoft
CDN address parameterized only by the version tag.  The release's
`zipball_url` is not used. -/
def cdnUrl (version : String) : String :=
  "https://vscode.download.prss.microsoft.com/dbazure/download/stable/ea1445cc7016315d0f5728f8e8b12a45dc0a7286/VSCode-win32-x64-"
    ++ version ++ ".zip"

/-- The temporary archive path `${tempDir}\VSCode-win32-x64-${version}.zip`. -/
def archivePath (tempDir version : String) : String :=
  tempDir ++ "\\VSCode-win32-x64-" ++ version ++ ".zip"

/-- Method `Updater.downloadLatest`: fetches `cdnUrl version`; a non-2xx status
(`!res.ok`) throws; on success the body is written to the temporary
archive path, which is returned. -/
def downloadLatest (env : Env) (version : String) (st : St) :
    Except String String × St × List Event :=
  let url := cdnUrl version
  let path := archivePath env.tempDir version
  if env.downloadOk then
    (.ok path, st, [.download url, .fileWrite path])
  else
    (.error ("Failed to fetch " ++ url), st, [.download url])

/-- Method `Updater.updateProcess`: re-runs `checkUpdate`, re-fetches the latest
version, downloads it, decompresses the archive into `config.dir` and
removes the archive. -/
def updateProcess (cfg : ConfigData) (env : Env) (st : St) :
    Except String Unit × St × List Event :=
  match checkUpdate cfg env st with
  | (.error e, st1, ev1) => (.error e, st1, ev1)
  | (.ok false, st1, ev1) => (.ok (), st1, ev1)
  | (.ok true, st1, ev1) =>
    match getLatestVersion cfg env st1 with
    | (.error e, st2, ev2) => (.error e, st2, ev1 ++ ev2)
    | (.ok none, st2, ev2) => (.ok (), st2, ev1 ++ ev2)
    | (.ok (some l), st2, ev2) =>
      match downloadLatest env l.version st2 with
      | (.error e, st3, ev3) => (.error e, st3, ev1 ++ ev2 ++ ev3)
      | (.ok path, st3, ev3) =>
        match env.extractError with
        | some e => (.error e, st3, ev1 ++ ev2 ++ ev3 ++ [.extract path cfg.dir])
        | none =>
            (.ok (), st3,
              ev1 ++ ev2 ++ ev3 ++ [.extract path cfg.dir, .fileRemove path])

/-- Outcome classification of one `Updater.run` invocation, following the
branch it takes (the source method returns `void`; these are the spec's
`CycleOutcome` names for its paths). -/
inductive CycleOutcome where
  | noUpdateNeeded
  | updateApplied
  | updateSkippedBusy
deriving DecidableEq, Repr

def busyMsg : String :=
  "Vscode is running, update skipped...\nPlease close vscode and run the updater again"

def updatingMsgHead : String := "Updating vscode to the latest version "

/-- Method `Updater.run`: if `checkUpdate` reports an update and `Code.exe` is
not running, it re-fetches the latest version, notifies
"Updating vscode to the latest version X" when it is non-null, and runs
`updateProcess`; if the process is running it notifies the busy message
and skips; errors propagate. -/
def run (cfg : ConfigData) (env : Env) (st : St) :
    Except String CycleOutcome × St × List Event :=
  match checkUpdate cfg env st with
  | (.error e, st1, ev1) => (.error e, st1, ev1)
  | (.ok false, st1, ev1) => (.ok .noUpdateNeeded, st1, ev1)
  | (.ok true, st1, ev1) =>
    match env.processCheck with
    | .error e => (.error e, st1, ev1)
    | .ok true =>
        let r := notify st1.ns updaterTitle busyMsg env.now
        (.ok .updateSkippedBusy, { st1 with ns := r.1 },
          ev1 ++ [.notifyCall updaterTitle busyMsg r.2])
    | .ok false =>
      match getLatestVersion cfg env st1 with
      | (.error e, st2, ev2) => (.error e, st2, ev1 ++ ev2)
      | (.ok latest, st2, ev2) =>
        let p : St × List Event :=
          match latest with
          | some l =>
              let m := updatingMsgHead ++ l.version
              let r := notify st2.ns updaterTitle m env.now
              ({ st2 with ns := r.1 }, [.notifyCall updaterTitle m r.2])
          | none => (st2, [])
        match updateProcess cfg env p.1 with
        | (.error e, st4, ev4) => (.error e, st4, ev1 ++ ev2 ++ p.2 ++ ev4)
        | (.ok _, st4, ev4) =>
            (.ok .updateApplied, st4, ev1 ++ ev2 ++ p.2 ++ ev4)

def configNotFoundMsg : String := "Configuration file not found"

def errorNoticeMsg : String :=
  "An error occurred, check the log file for more details in the output.log file."

def successMsg : String := "Update completed successfully!"

/-- One iteration of the `while (true)` body of `intervalLoop` in
`vscode-updater.ts` (after the `setTimeout` wait): check the
configuration (a missing file only notifies, then the update check still
runs), run `updater.run()`, notify success; any thrown error is caught
inside the loop body, logged and surfaced with the generic error notice.
The function is total: the loop body never lets an error escape. -/
def intervalTick (cfg : ConfigData) (env : Env) (st : St) : St × List Event :=
  match env.configCheck with
  | .error _e =>
      let r := notify st.ns errorTitle errorNoticeMsg env.now
      ({ st with ns := r.1 }, [.notifyCall errorTitle errorNoticeMsg r.2])
  | .ok found =>
    let p : St × List Event :=
      if found then (st, [])
      else
        let r := notify st.ns errorTitle configNotFoundMsg env.now
        ({ st with ns := r.1 }, [.notifyCall errorTitle configNotFoundMsg r.2])
    match run cfg env p.1 with
    | (.error _e, st2, ev2) =>
        let r := notify st2.ns errorTitle errorNoticeMsg env.now
        ({ st2 with ns := r.1 },
          p.2 ++ ev2 ++ [.notifyCall errorTitle errorNoticeMsg r.2])
    | (.ok _, st2, ev2) =>
        let r := notify st2.ns updaterTitle successMsg env.now
        ({ st2 with ns := r.1 },
          p.2 ++ ev2 ++ [.notifyCall updaterTitle successMsg r.2])

/-- Result of `start` in `vscode-updater.ts` up to loop entry:
`exited msg` means `exit(msg)` was reached (the process terminates),
`loopEntered st` means the first `updater.run()` completed and
`intervalLoop` is entered with state `st`.  (The run-marker
"already running" guard is an excluded collaborator.) -/
inductive StartResult where
  | exited (message : Option String)
  | loopEntered (st : St)
deriving DecidableEq, Repr

/-- Function `start` from `vscode-updater.ts`: a failing `checkConfig` exits with
"Configuration file not found"; the first `updater.run()` happens inside
a `try` whose `catch` calls `exit` with the generic error notice — an
error in the very first cycle terminates the process. -/
def start (cfg : ConfigData) (env : Env) (st : St) : StartResult :=
  match env.configCheck with
  | .error _e => .exited (some errorNoticeMsg)
  | .ok false => .exited (some configNotFoundMsg)
  | .ok true =>
    match run cfg env st with
    | (.error _e, _st1, _ev) => .exited (some errorNoticeMsg)
    | (.ok _, st1, _ev) => .loopEntered st1

/-- The `interval` computation at the top of `intervalLoop`:
`let interval = config.interval; if (updater.reset > 100) interval =
updater.reset; if (interval < 100) interval = 100;`. -/
def intervalLoopDelay (cfgInterval resetVal : Int) : Int :=
  let i := if resetVal > 100 then resetVal else cfgInterval
  if i < 100 then 100 else i

/-- Scheduler state: the `interval` local variable captured before the
`while (true)` loop, plus the updater/notify state. -/
structure SchedState where
  interval : Int
  st : St
deriving DecidableEq, Repr

/-- Loop entry: the delay is computed once, from `config.interval` and
the value of `updater.reset` at that moment.  (The one-time
"interval changed" notice emitted here is a pure notification and is not
modelled.) -/
def schedInit (cfg : ConfigData) (st0 : St) : SchedState :=
  { interval := intervalLoopDelay (configInterval cfg) st0.reset, st := st0 }

/-- One scheduler turn: wait `interval` milliseconds (returned as the
delay used), then run the loop body.  The captured `interval` variable is
never reassigned inside the loop. -/
def schedStep (cfg : ConfigData) (env : Env) (s : SchedState) :
    Int × SchedState :=
  (s.interval, { s with st := (intervalTick cfg env s.st).1 })

/-- The scheduler trace: state before tick `n`, driven by a sequence of
per-tick environments. -/
def schedTrace (cfg : ConfigData) (envs : Nat → Env) (st0 : St) :
    Nat → SchedState
  | 0 => schedInit cfg st0
  | n + 1 => (schedStep cfg (envs n) (schedTrace cfg envs st0 n)).2

/-- The delay the code actually waits before tick `n`. -/
def delayBeforeTick (cfg : ConfigData) (envs : Nat → Env) (st0 : St)
    (n : Nat) : Int :=
  (schedStep cfg (envs n) (schedTrace cfg envs st0 n)).1

/-- Modelled from the spec's words, for comparison with
`delayBeforeTick` (claim C3): the delay "derived afresh from the
then-current RateLimitState" before tick `n`, i.e. the `intervalLoopDelay`
formula applied to the value `updater.reset` has at that tick. -/
def specRecomputedDelay (cfg : ConfigData) (envs : Nat → Env) (st0 : St)
    (n : Nat) : Int :=
  intervalLoopDelay (configInterval cfg) (schedTrace cfg envs st0 n).st.reset

/-- The archive-fetch URLs among a trace's events. -/
def downloadUrls (evs : List Event) : List String :=
  evs.filterMap fun e => match e with | .download u => some u | _ => none

/-- The releases-API requests among a trace's events
(URL and the `Authorization` header actually sent). -/
def httpGets (evs : List Event) : List (String × Option String) :=
  evs.filterMap fun e => match e with | .httpGet u a => some (u, a) | _ => none

/-- The `decompress` calls among a trace's events (archive, destination). -/
def extractCalls (evs : List Event) : List (String × String) :=
  evs.filterMap fun e => match e with | .extract a d => some (a, d) | _ => none

/-- The `Deno.removeSync` calls among a trace's events. -/
def removeCalls (evs : List Event) : List String :=
  evs.filterMap fun e => match e with | .fileRemove p => some p | _ => none

/-- The `Deno.writeFileSync` calls among a trace's events. -/
def fileWriteCalls (evs : List Event) : List String :=
  evs.filterMap fun e => match e with | .fileWrite p => some p | _ => none

/-- The messages passed to `notify` among a trace's events. -/
def notifiedMessages (evs : List Event) : List String :=
  evs.filterMap fun e => match e with | .notifyCall _ m _ => some m | _ => none

/-! ## Concrete fixtures used in closed theorems and witnesses -/

def nsInit : NotifyState := { lastMessage := "", lastTime := 0 }

/-- The initial updater state: `Updater.reset = 100` and a fresh notify
module (`lastMessage = ""`, `lastTime = 0`). -/
def stInit : St := { reset := 100, ns := nsInit }

/-- A state whose stored rate-limit value is far above the 100 ms
threshold. -/
def stHot : St := { reset := 5000000, ns := nsInit }

def cfgBase : ConfigData :=
  { dir := "C:\\vscode", interval := 1800000, token := none }

def cfgTok : ConfigData :=
  { dir := "C:\\vscode", interval := 1800000, token := some "abc" }

def zipUrl190 : String :=
  "https://api.github.com/repos/microsoft/vscode/zipball/1.90.0"

/-- Remote reports release 1.90.0 while 1.89.0 is installed; the target
process is not running; download and extraction succeed. -/
def envRelease190 : Env :=
  { api := .release "1.90.0" zipUrl190
    manifest := .version "1.89.0"
    processCheck := .ok false
    downloadOk := true
    extractError := none
    configCheck := .ok true
    now := 0
    tempDir := "TMP" }

/-- Remote reports the same version as the one installed. -/
def envEqual : Env := { envRelease190 with manifest := .version "1.90.0" }

/-- An update is available but `Code.exe` is reported running. -/
def envBusy : Env := { envRelease190 with processCheck := .ok true }

/-- A throttled answer at `Date.now() = 1000000` with
`x-ratelimit-reset = 6000` (Unix seconds), so the reset epoch is
6000000 ms and the stored value becomes `6000 * 1000 - 1000000 = 5000000`. -/
def envThrottle : Env :=
  { envRelease190 with
    api := .throttled "API rate limit exceeded" 6000
    now := 1000000 }

/-- The world at `Date.now() = 7000000`, after the wall clock passed the
6000000 ms reset epoch: the remote would now answer with release 1.95.0. -/
def envAfterReset : Env :=
  { envRelease190 with
    api := .release "1.95.0" "https://api.github.com/repos/microsoft/vscode/zipball/1.95.0"
    now := 7000000 }

/-- The releases-API fetch throws. -/
def envFail : Env := { envRelease190 with api := .failure "network failure" }

/-- A throttled answer at `Date.now() = 0` with
`x-ratelimit-reset = 7200`, storing `7200000`. -/
def envC3 : Env :=
  { envRelease190 with api := .throttled "API rate limit exceeded" 7200 }

def envsC3 : Nat → Env := fun _ => envC3

/-! ## Theorems -/

/-- Claim C10 (confirmed): the notification operation suppresses
consecutive duplicates — for every two successive `notify` calls whose
message strings are equal, the second call shows no notification and
leaves the notification state (last shown message and timestamp)
unchanged, regardless of the titles. -/
theorem c10_notify_dedups_consecutive_duplicates
    (s : NotifyState) (t1 m t2 : String) (now1 now2 : Int) :
    notify (notify s t1 m now1).1 t2 m now2 = ((notify s t1 m now1).1, false) := by
  unfold notify
  by_cases h : s.lastMessage = m <;> simp [h]

/-- Claim C9 (amended): in every state whose stored rate-limit value
exceeds the 100 ms threshold, two consecutive `fetchLatest`
(`getLatestVersion`) calls perform **zero** network requests — both
short-circuit to `null` and leave the state unchanged (the claim's
"exactly one network request" does not hold: the first call is
short-circuited too). -/
theorem c9_amended_both_calls_short_circuit
    (cfg : ConfigData) (env1 env2 : Env) (st : St) (h : st.reset > 100) :
    getLatestVersion cfg env1 st = (.ok none, st, []) ∧
    getLatestVersion cfg env2 st = (.ok none, st, []) := by
  unfold getLatestVersion
  simp [if_pos h]

theorem c9_witness :
    getLatestVersion cfgBase envAfterReset stHot = (.ok none, stHot, []) ∧
    getLatestVersion cfgBase envAfterReset stHot = (.ok none, stHot, []) :=
  c9_amended_both_calls_short_circuit cfgBase envAfterReset envAfterReset stHot
    (by decide)

/-- Claim C9 (counterexample): with the stored rate-limit value in the
future (`reset = 5000000 > 100`), two consecutive `getLatestVersion`
calls perform 0 network requests, not the claimed exactly 1. -/
theorem c9_counterexample :
    (httpGets ((getLatestVersion cfgBase envAfterReset stHot).2.2 ++
        (getLatestVersion cfgBase envAfterReset
          (getLatestVersion cfgBase envAfterReset stHot).2.1).2.2)).length = 0 ∧
    ¬ (httpGets ((getLatestVersion cfgBase envAfterReset stHot).2.2 ++
        (getLatestVersion cfgBase envAfterReset
          (getLatestVersion cfgBase envAfterReset stHot).2.1).2.2)).length = 1 := by
  exact ⟨rfl, by decide⟩

/-- Claim C2 (code bug): the stored rate-limit value is a remaining-time
snapshot that the passage of time never clears.  A throttled response at
`now = 1000000` with reset epoch 6000000 ms stores `reset = 5000000`;
at `now = 7000000` — after the wall clock passed the reset epoch, with a
release available — `getLatestVersion` still short-circuits to `null`
with no network request, instead of performing the query again. -/
theorem c2_reset_never_cleared_by_time :
    (getLatestVersion cfgBase envThrottle stInit).2.1.reset = 5000000 ∧
    getLatestVersion cfgBase envAfterReset
        (getLatestVersion cfgBase envThrottle stInit).2.1 =
      (.ok none, (getLatestVersion cfgBase envThrottle stInit).2.1, []) :=
  ⟨rfl, rfl⟩

/-- Claim C8 (code bug): with a configured token, `getLatestVersion`
builds a `ReqHeaders` object carrying `Authorization: token abc`, but
the request actually sent to the releases API carries no `Authorization`
header at all (`fetch(uri)` is called without the headers object). -/
theorem c8_auth_header_built_but_not_sent :
    builtReqHeaders cfgTok = [("Authorization", "token abc")] ∧
    httpGets (getLatestVersion cfgTok envRelease190 stInit).2.2 =
      [(apiUri, none)] :=
  ⟨rfl, rfl⟩

/-- Claim C3 (counterexample): the scheduler does not recompute the delay
before every tick.  With interval 1800000 and `reset = 100` at loop
entry, tick 1's run is throttled and stores `reset = 7200000`; the delay
the code waits before tick 2 is still 1800000, while the delay "derived
afresh from the then-current RateLimitState" would be 7200000. -/
theorem c3_counterexample :
    delayBeforeTick cfgBase envsC3 stInit 1 = 1800000 ∧
    specRecomputedDelay cfgBase envsC3 stInit 1 = 7200000 ∧
    delayBeforeTick cfgBase envsC3 stInit 1 ≠
      specRecomputedDelay cfgBase envsC3 stInit 1 :=
  ⟨rfl, rfl, by decide⟩

/-- Claim C3 (amended): the delay is computed once, at loop entry, from the
configured interval and the rate-limit value current at that moment
(overriding to the stored reset value when it exceeds 100 ms, with a
100 ms floor), and that single value is then used unchanged before every
tick — the override is sticky for the whole loop, and every delay is at
least 100 ms. -/
theorem c3_amended_delay_computed_once_with_floor
    (cfg : ConfigData) (envs : Nat → Env) (st0 : St) (n : Nat) :
    delayBeforeTick cfg envs st0 n =
      intervalLoopDelay (configInterval cfg) st0.reset ∧
    100 ≤ delayBeforeTick cfg envs st0 n := by
  have hconst : ∀ m, (schedTrace cfg envs st0 m).interval =
      intervalLoopDelay (configInterval cfg) st0.reset := by
    intro m
    induction m with
    | zero => rfl
    | succ k ih => simpa [schedTrace, schedStep] using ih
  have hdelay : delayBeforeTick cfg envs st0 n =
      intervalLoopDelay (configInterval cfg) st0.reset := hconst n
  refine ⟨hdelay, ?_⟩
  rw [hdelay]
  unfold intervalLoopDelay
  dsimp only
  split <;> omega

/-- Claim C7 (counterexample): an error originating in the very first
update cycle at process start is not survived — `start` reaches
`exit(...)` and the process terminates (after the generic error notice). -/
theorem c7_counterexample :
    start cfgBase envFail stInit = .exited (some errorNoticeMsg) := rfl

/-- Claim C7 (amended): an error thrown by `updater.run()` inside the
interval loop is caught at the loop-body boundary — the tick completes,
calling `notify` with the generic error notice — but the same error in
the very first cycle run at process start makes `start` exit the
process (with the same notice). -/
theorem c7_amended_loop_catches_but_start_exits
    (cfg : ConfigData) (env : Env) (st : St) (e : String)
    (hc : env.configCheck = .ok true)
    (he : (run cfg env st).1 = .error e) :
    errorNoticeMsg ∈ notifiedMessages (intervalTick cfg env st).2 ∧
    start cfg env st = .exited (some errorNoticeMsg) := by
  rcases hrun : run cfg env st with ⟨r1, st2, ev2⟩
  rw [hrun] at he
  simp only at he
  subst he
  constructor
  · unfold intervalTick
    rw [hc]
    simp only [if_true]
    rw [hrun]
    simp [notifiedMessages, List.filterMap_append]
  · unfold start
    rw [hc, hrun]

theorem c7_witness :
    errorNoticeMsg ∈ notifiedMessages (intervalTick cfgBase envFail stInit).2 ∧
    start cfgBase envFail stInit = .exited (some errorNoticeMsg) :=
  c7_amended_loop_catches_but_start_exits cfgBase envFail stInit
    "network failure" rfl rfl

/-- Claim C4 (confirmed): whenever the installed and latest version strings
are equal under exact string equality, one run of the update cycle takes
the no-update branch and performs no download, no extraction, no archive
file write and no file removal. -/
theorem c4_equal_versions_no_update
    (cfg : ConfigData) (env : Env) (st : St) (v zip : String)
    (hm : env.manifest = .version v) (ha : env.api = .release v zip) :
    (run cfg env st).1 = .ok .noUpdateNeeded ∧
    downloadUrls (run cfg env st).2.2 = [] ∧
    extractCalls (run cfg env st).2.2 = [] ∧
    fileWriteCalls (run cfg env st).2.2 = [] ∧
    removeCalls (run cfg env st).2.2 = [] := by
  by_cases hr : st.reset > 100 <;>
    simp [run, checkUpdate, getLocalVersion, getLatestVersion, hm, ha, hr,
      downloadUrls, extractCalls, fileWriteCalls, removeCalls]

theorem c4_witness :
    (run cfgBase envEqual stInit).1 = .ok .noUpdateNeeded ∧
    downloadUrls (run cfgBase envEqual stInit).2.2 = [] ∧
    extractCalls (run cfgBase envEqual stInit).2.2 = [] ∧
    fileWriteCalls (run cfgBase envEqual stInit).2.2 = [] ∧
    removeCalls (run cfgBase envEqual stInit).2.2 = [] :=
  c4_equal_versions_no_update cfgBase envEqual stInit "1.90.0" zipUrl190
    rfl rfl

/-- Claim C6 (confirmed): when the version comparison detects a difference
but the target process is reported running, the cycle calls `notify`
with the please-close message, takes the skipped-busy branch, and
triggers zero download calls. -/
theorem c6_busy_skips_download
    (cfg : ConfigData) (env : Env) (st : St) (v tag zip : String)
    (hm : env.manifest = .version v) (ha : env.api = .release tag zip)
    (hne : tag ≠ v) (hp : env.processCheck = .ok true)
    (hr : st.reset ≤ 100) :
    (run cfg env st).1 = .ok .updateSkippedBusy ∧
    busyMsg ∈ notifiedMessages (run cfg env st).2.2 ∧
    downloadUrls (run cfg env st).2.2 = [] := by
  have hr' : ¬ st.reset > 100 := by omega
  simp [run, checkUpdate, getLocalVersion, getLatestVersion, hm, ha, hp, hr',
    hne, downloadUrls, notifiedMessages]

theorem c6_witness :
    (run cfgBase envBusy stInit).1 = .ok .updateSkippedBusy ∧
    busyMsg ∈ notifiedMessages (run cfgBase envBusy stInit).2.2 ∧
    downloadUrls (run cfgBase envBusy stInit).2.2 = [] :=
  c6_busy_skips_download cfgBase envBusy stInit "1.89.0" "1.90.0" zipUrl190
    rfl rfl (by decide) rfl (by decide)

/-- Claim C5 (confirmed): when the installed and latest versions differ and
the target process is reported not running, one run of the update cycle
performs exactly one download and exactly one extraction, then deletes
the temporary archive (the removal is the last effect, right after the
extraction), and takes the update-applied branch. -/
theorem c5_update_applied_one_download_one_extract
    (cfg : ConfigData) (env : Env) (st : St) (v tag zip : String)
    (hm : env.manifest = .version v) (ha : env.api = .release tag zip)
    (hne : tag ≠ v) (hp : env.processCheck = .ok false)
    (hd : env.downloadOk = true) (hx : env.extractError = none)
    (hr : st.reset ≤ 100) :
    (run cfg env st).1 = .ok .updateApplied ∧
    downloadUrls (run cfg env st).2.2 = [cdnUrl tag] ∧
    extractCalls (run cfg env st).2.2 =
      [(archivePath env.tempDir tag, cfg.dir)] ∧
    removeCalls (run cfg env st).2.2 = [archivePath env.tempDir tag] ∧
    (run cfg env st).2.2.reverse.take 2 =
      [.fileRemove (archivePath env.tempDir tag),
        .extract (archivePath env.tempDir tag) cfg.dir] := by
  have hr' : ¬ st.reset > 100 := by omega
  simp [run, checkUpdate, getLocalVersion, getLatestVersion, updateProcess,
    downloadLatest, hm, ha, hp, hd, hx, hr', hne, downloadUrls, extractCalls,
    removeCalls]

theorem c5_witness :
    (run cfgBase envRelease190 stInit).1 = .ok .updateApplied ∧
    downloadUrls (run cfgBase envRelease190 stInit).2.2 = [cdnUrl "1.90.0"] ∧
    extractCalls (run cfgBase envRelease190 stInit).2.2 =
      [(archivePath envRelease190.tempDir "1.90.0", cfgBase.dir)] ∧
    removeCalls (run cfgBase envRelease190 stInit).2.2 =
      [archivePath envRelease190.tempDir "1.90.0"] ∧
    (run cfgBase envRelease190 stInit).2.2.reverse.take 2 =
      [.fileRemove (archivePath envRelease190.tempDir "1.90.0"),
        .extract (archivePath envRelease190.tempDir "1.90.0") cfgBase.dir] :=
  c5_update_applied_one_download_one_extract cfgBase envRelease190 stInit
    "1.89.0" "1.90.0" zipUrl190 rfl rfl (by decide) rfl rfl rfl (by decide)

/-- Claim C1 (counterexample): the archive the cycle downloads is not
fetched from the release's `zipball_url`.  With release tag 1.90.0 and
its API `zipball_url`, the cycle downloads exactly from the fixed
Microsoft CDN URL built from the tag, which differs from the
`zipball_url`. -/
theorem c1_counterexample :
    downloadUrls (run cfgBase envRelease190 stInit).2.2 = [cdnUrl "1.90.0"] ∧
    cdnUrl "1.90.0" ≠ zipUrl190 :=
  ⟨rfl, by decide⟩

/-- Claim C1 (amended): whenever the update cycle downloads an archive, the
URL is the fixed Microsoft CDN address parameterized only by the
release's version tag (`cdnUrl tag`); the `zipball_url` reported by the
release API is stored in the `Version` value but never used as the
download URL (the conclusion does not depend on `zip`). -/
theorem c1_amended_download_uses_cdn_url
    (cfg : ConfigData) (env : Env) (st : St) (v tag zip : String)
    (hm : env.manifest = .version v) (ha : env.api = .release tag zip)
    (hne : tag ≠ v) (hp : env.processCheck = .ok false)
    (hd : env.downloadOk = true) (hx : env.extractError = none)
    (hr : st.reset ≤ 100) :
    downloadUrls (run cfg env st).2.2 = [cdnUrl tag] := by
  have hr' : ¬ st.reset > 100 := by omega
  simp [run, checkUpdate, getLocalVersion, getLatestVersion, updateProcess,
    downloadLatest, hm, ha, hp, hd, hx, hr', hne, downloadUrls]

theorem c1_witness :
    downloadUrls (run cfgTok envRelease190 stInit).2.2 = [cdnUrl "1.90.0"] :=
  c1_amended_download_uses_cdn_url cfgTok envRelease190 stInit
    "1.89.0" "1.90.0" zipUrl190 rfl rfl (by decide) rfl rfl rfl (by decide)
